import Mathlib

/-! The driver nodelet of pmd_camboard_nano.

A shallow embedding of `src/driver_nodelet.cpp` (class `DriverNodelet`).

* A C++ `double` is a finite value, embedded as a rational (every finite double
  is one), an infinity or a NaN; the only arithmetic done on a configured
  double is its conversion to a `long` count of whole seconds.
* The outside world (the PMD SDK, the parameter server, the thread that may
  interrupt the init thread, the clock) is an explicit input: a parameter
  server, a script of open attempts and a list of timer ticks.
* Everything observable the driver does is recorded, in order, in a trace of
  `Event`s.
* A C++ exception that leaves a function is the `threw` status of a `Run`.
-/

namespace PmdCamboardNano

/-! ## Data model -/

/-- Value of `ros::Time`. -/
structure Time where
  sec : Nat
  nsec : Nat
  deriving DecidableEq, Repr

/-- Header of a ROS message (`std_msgs/Header`), the two fields the driver writes. -/
structure Header where
  stamp : Time
  frame_id : String
  deriving DecidableEq, Repr

/-- Depth image message (`sensor_msgs::Image`): header and payload. -/
structure Image where
  header : Header
  height : Nat
  width : Nat
  data : List Nat
  deriving DecidableEq, Repr

/-- Calibration message (`sensor_msgs::CameraInfo`): header and payload. -/
structure CameraInfo where
  header : Header
  height : Nat
  width : Nat
  K : List Int
  deriving DecidableEq, Repr

/-- An opened camera (`PMDCamboardNano`); `getSerialNumber` can be asked of it. -/
structure PMDCamboardNano where
  serialNumber : String
  deriving DecidableEq, Repr

/-- A C++ `double`: a finite value, an infinity, or a NaN. -/
inductive Double where
  | finite (value : ℚ)
  | posInf
  | negInf
  | nan
  deriving DecidableEq

/-- Exceptions that can travel through the driver. Only the first one is named
in a `catch` clause of the driver. -/
inductive Exception where
  | PMDCameraNotOpenedException
  | otherException (what : String)
  | thread_interrupted
  | null_camera
  deriving DecidableEq, Repr

/-- The three `NODELET_INFO` lines of `onInitImpl`. -/
inductive LogLine where
  | opened (serial : String)
  | unableToOpenSerial (device_serial : String)
  | unableToOpen
  deriving DecidableEq, Repr

/-- Text printed for a log line. -/
def LogLine.text : LogLine → String
  | .opened serial => "Opened PMD camera with serial number \"" ++ serial ++ "\""
  | .unableToOpenSerial device_serial =>
      "Unable to open PMD camera with serial number " ++ device_serial ++ "..."
  | .unableToOpen => "Unable to open PMD camera..."

/-- Is the line one of the two "Unable to open" lines of the catch block. -/
def LogLine.isUnableToOpen : LogLine → Bool
  | .opened _ => false
  | .unableToOpenSerial _ => true
  | .unableToOpen => true

/-- Observable actions of the driver, in the order they happen. -/
inductive Event where
  | openAttempt (device_serial : String)
  | assignCamera (cam : PMDCamboardNano)
  | log (line : LogLine)
  | sleep (seconds : Int)
  | advertiseCamera (topic : String)
  | createTimer (period : ℚ)
  | publish (depth : Image) (info : CameraInfo)
  deriving DecidableEq

/-- Member variables of `DriverNodelet` (the init thread is the `Run` itself). -/
structure DriverNodelet where
  camera_ : Option PMDCamboardNano := none
  update_timer_ : Option ℚ := none
  depth_publisher_ : Option String := none
  depth_frame_id_ : String := ""
  deriving DecidableEq

/-- How control left a piece of code: it returned, an exception left it, or the
script of the outside world ended while the open loop was still going round. -/
inductive Status where
  | returned
  | threw (e : Exception)
  | retrying
  deriving DecidableEq, Repr

/-- Result of running a piece of the driver. -/
structure Run where
  self : DriverNodelet
  trace : List Event
  status : Status

/-- The private parameter server: a parameter is either set or absent. -/
structure ParamServer where
  depth_frame_id : Option String := none
  device_serial : Option String := none
  open_camera_retry_period : Option Double := none
  update_rate : Option Double := none

/-- `pn.param<T>(name, var, default)`. -/
def ParamServer.param {α : Type} (value : Option α) (dflt : α) : α :=
  value.getD dflt

/-- One trip round the open loop as the outside world decides it: what the
constructor `PMDCamboardNano(device_serial)` does, and whether an interruption
of the init thread is pending when the thread reaches the `sleep` that ends
the trip (`boost::this_thread::sleep` is an interruption point). -/
structure Attempt where
  result : Except Exception PMDCamboardNano
  interrupted : Bool := false

/-- One firing of the timer as the outside world decides it: the clock, and what
`getCameraInfo` and `getDepthImage` do. -/
structure Tick where
  now : Time
  cameraInfo : Except Exception CameraInfo
  depthImage : Except Exception Image

/-! ## Library functions used by the driver -/

/-- Least value of a 64-bit `long`. -/
def LONG_MIN : Int := -(2 ^ 63)

/-- Greatest value of a 64-bit `long`. -/
def LONG_MAX : Int := 2 ^ 63 - 1

/-- Implicit conversion of a `double` to a 64-bit `long`. A finite value loses
its fractional part (rounds toward zero) and the result is that integer when
it fits a `long`. When it does not fit, and for an infinity or a NaN, C++
leaves the conversion undefined; the value given here is the one the x86-64
conversion instruction returns, `LONG_MIN`. -/
def doubleToLong : Double → Int
  | .finite d =>
    if LONG_MIN ≤ Int.tdiv d.num d.den ∧ Int.tdiv d.num d.den ≤ LONG_MAX then
      Int.tdiv d.num d.den
    else LONG_MIN
  | .posInf => LONG_MIN
  | .negInf => LONG_MIN
  | .nan => LONG_MIN

/-- `boost::posix_time::seconds(long)` applied to a `double` (line 87): the
argument is first converted to `long`; the result is the count of whole
seconds handed to `sleep`. -/
def posix_time_seconds (d : Double) : Int :=
  doubleToLong d

/-- `ros::Rate(frequency).expectedCycleTime()`, in seconds. -/
def Rate.expectedCycleTime (frequency : ℚ) : ℚ :=
  1 / frequency

/-- Put the events of an earlier piece of code in front of a run. -/
def Run.after (evs : List Event) (r : Run) : Run :=
  { r with trace := evs ++ r.trace }

/-! ## `DriverNodelet::onInitImpl` -/

/-- The `while (!camera_)` loop of `onInitImpl` (lines 73-88). -/
def openLoop (device_serial : String) (open_camera_retry_period : Double) :
    List Attempt → DriverNodelet → Run
  | [], self =>
    match self.camera_ with
    | some _ => ⟨self, [], .returned⟩
    | none => ⟨self, [], .retrying⟩
  | a :: rest, self =>
    match self.camera_ with
    | some _ => ⟨self, [], .returned⟩
    | none =>
      -- try { camera_ = make_shared<PMDCamboardNano>(device_serial); NODELET_INFO(...) }
      let tried : Except Exception (DriverNodelet × List Event) :=
        match a.result with
        | .ok cam =>
          .ok ({ self with camera_ := some cam },
               [.openAttempt device_serial, .assignCamera cam, .log (.opened cam.serialNumber)])
        | .error .PMDCameraNotOpenedException =>
          -- catch (PMDCameraNotOpenedException& e)
          .ok (self,
               [.openAttempt device_serial,
                .log (if device_serial ≠ "" then .unableToOpenSerial device_serial
                      else .unableToOpen)])
        | .error e => .error e
      match tried with
      | .error e => ⟨self, [.openAttempt device_serial], .threw e⟩
      | .ok (self1, evs) =>
        -- boost::this_thread::sleep(boost::posix_time::seconds(open_camera_retry_period))
        if a.interrupted then
          ⟨self1, evs, .threw .thread_interrupted⟩
        else
          (openLoop device_serial open_camera_retry_period rest self1).after
            (evs ++ [.sleep (posix_time_seconds open_camera_retry_period)])

/-- Body of `DriverNodelet::onInitImpl` (lines 58-99). -/
def onInitImpl (self : DriverNodelet) (pn : ParamServer) (script : List Attempt) : Run :=
  let self0 : DriverNodelet :=
    { self with depth_frame_id_ := ParamServer.param pn.depth_frame_id "/pmd_depth_optical_frame" }
  let device_serial : String := ParamServer.param pn.device_serial ""
  let open_camera_retry_period : Double :=
    ParamServer.param pn.open_camera_retry_period (.finite 3)
  let _update_rate : Double := ParamServer.param pn.update_rate (.finite 30)
  let r := openLoop device_serial open_camera_retry_period script self0
  match r.status with
  | .returned =>
    let period := Rate.expectedCycleTime 30
    ⟨{ r.self with depth_publisher_ := some "depth/image", update_timer_ := some period },
     r.trace ++ [.advertiseCamera "depth/image", .createTimer period],
     .returned⟩
  | _ => r

/-! ## `DriverNodelet::updateCallback` -/

/-- Body of `DriverNodelet::updateCallback` (lines 101-113). -/
def updateCallback (self : DriverNodelet) (event : Tick) : Run :=
  let ts := event.now
  match self.camera_ with
  | none => ⟨self, [], .threw .null_camera⟩
  | some _ =>
    match event.cameraInfo with
    | .error e => ⟨self, [], .threw e⟩
    | .ok info =>
      match event.depthImage with
      | .error e => ⟨self, [], .threw e⟩
      | .ok depth =>
        let info1 := { info with header := { info.header with stamp := ts } }
        let depth1 := { depth with header := { depth.header with stamp := ts } }
        let info2 := { info1 with header := { info1.header with frame_id := self.depth_frame_id_ } }
        let depth2 := { depth1 with header := { depth1.header with frame_id := self.depth_frame_id_ } }
        ⟨self, [.publish depth2 info2], .returned⟩

/-! ## The timer and the whole driver -/

/-- The timer firing `updateCallback` once per tick. The code that calls the
callback belongs to the host (roscpp), not to this repository: whether it goes
on to the next tick after an exception has left the callback is the parameter
`hostAbsorbs`. -/
def spinTimer (hostAbsorbs : Bool) : List Tick → DriverNodelet → Run
  | [], self => ⟨self, [], .returned⟩
  | t :: rest, self =>
    let r := updateCallback self t
    match r.status with
    | .threw e =>
      if hostAbsorbs then (spinTimer hostAbsorbs rest r.self).after r.trace
      else ⟨r.self, r.trace, .threw e⟩
    | _ => (spinTimer hostAbsorbs rest r.self).after r.trace

/-- A whole life of the nodelet: `onInit` starts `onInitImpl` on a fresh object,
and the ticks fire only if the timer was created. -/
def runDriver (pn : ParamServer) (script : List Attempt) (hostAbsorbs : Bool)
    (ticks : List Tick) : Run :=
  let r := onInitImpl {} pn script
  match r.self.update_timer_ with
  | none => r
  | some _ => (spinTimer hostAbsorbs ticks r.self).after r.trace

/-! ## Observations on traces -/

/-- Number of open attempts in a trace. -/
def openAttempts (tr : List Event) : Nat :=
  tr.countP (fun e => match e with | .openAttempt _ => true | _ => false)

/-- Number of "Unable to open" log lines in a trace. -/
def unableToOpenLogs (tr : List Event) : Nat :=
  tr.countP (fun e => match e with | .log l => l.isUnableToOpen | _ => false)

/-- Number of log lines of any kind in a trace. -/
def logLines (tr : List Event) : Nat :=
  tr.countP (fun e => match e with | .log _ => true | _ => false)

/-- Durations handed to `sleep`, in order. -/
def sleeps (tr : List Event) : List Int :=
  tr.filterMap (fun e => match e with | .sleep s => some s | _ => none)

/-- Cameras written to `camera_`, in order. -/
def cameraWrites (tr : List Event) : List PMDCamboardNano :=
  tr.filterMap (fun e => match e with | .assignCamera c => some c | _ => none)

/-- Pairs handed to the publisher, in order. -/
def published (tr : List Event) : List (Image × CameraInfo) :=
  tr.filterMap (fun e => match e with | .publish d i => some (d, i) | _ => none)

/-- Timer periods of the `createTimer` calls, in order. -/
def timersCreated (tr : List Event) : List ℚ :=
  tr.filterMap (fun e => match e with | .createTimer p => some p | _ => none)

/-- Topics of the `advertiseCamera` calls, in order. -/
def advertised (tr : List Event) : List String :=
  tr.filterMap (fun e => match e with | .advertiseCamera t => some t | _ => none)

/-- Walk a trace and collect, for every open attempt but the first, the
durations handed to `sleep` since the open attempt before it. The second
argument is `none` as long as no open attempt has been met, and otherwise
holds the durations met since the latest one. -/
def gapsFrom : List Event → Option (List Int) → List (List Int)
  | [], _ => []
  | .openAttempt _ :: rest, none => gapsFrom rest (some [])
  | .openAttempt _ :: rest, some acc => acc :: gapsFrom rest (some [])
  | .sleep s :: rest, st => gapsFrom rest (st.map (fun acc => acc ++ [s]))
  | _ :: rest, st => gapsFrom rest st

/-- For each pair of consecutive open attempts of a trace, in order, the
durations handed to `sleep` between the two. -/
def sleepsBetweenAttempts (tr : List Event) : List (List Int) :=
  gapsFrom tr none

/-- Number of open attempts that come after the first write to `camera_`. -/
def openAttemptsAfterWrite : List Event → Nat
  | [] => 0
  | .assignCamera _ :: rest => openAttempts rest
  | _ :: rest => openAttemptsAfterWrite rest

/-- A script of `n` attempts that fail with `PMDCameraNotOpenedException`, none
interrupted. -/
def failedAttempts (n : Nat) : List Attempt :=
  List.replicate n ⟨.error .PMDCameraNotOpenedException, false⟩

/-! ## Facts about the open loop -/

theorem Run.after_self (evs : List Event) (r : Run) : (r.after evs).self = r.self := rfl

theorem Run.after_trace (evs : List Event) (r : Run) : (r.after evs).trace = evs ++ r.trace := rfl

theorem Run.after_status (evs : List Event) (r : Run) : (r.after evs).status = r.status := rfl

theorem openLoop_of_camera (ds : String) (p : Double) (script : List Attempt) (self : DriverNodelet)
    (c : PMDCamboardNano) (h : self.camera_ = some c) :
    openLoop ds p script self = ⟨self, [], .returned⟩ := by
  cases script <;> simp [openLoop, h]

theorem openLoop_failed (ds : String) (p : Double) (rest : List Attempt) (self : DriverNodelet)
    (h : self.camera_ = none) :
    openLoop ds p (⟨.error .PMDCameraNotOpenedException, false⟩ :: rest) self
      = (openLoop ds p rest self).after
          [.openAttempt ds,
           .log (if ds ≠ "" then .unableToOpenSerial ds else .unableToOpen),
           .sleep (posix_time_seconds p)] := by
  simp [openLoop, h]

theorem openLoop_opened (ds : String) (p : Double) (rest : List Attempt) (self : DriverNodelet)
    (cam : PMDCamboardNano) (h : self.camera_ = none) :
    openLoop ds p (⟨.ok cam, false⟩ :: rest) self
      = ⟨{ self with camera_ := some cam },
         [.openAttempt ds, .assignCamera cam, .log (.opened cam.serialNumber),
          .sleep (posix_time_seconds p)],
         .returned⟩ := by
  simp [openLoop, h, openLoop_of_camera ds p rest { self with camera_ := some cam } cam rfl,
    Run.after]


/-! ## Facts about the observations -/

@[simp]
theorem openAttempts_append (a b : List Event) :
    openAttempts (a ++ b) = openAttempts a + openAttempts b := by
  simp [openAttempts]

@[simp]
theorem unableToOpenLogs_append (a b : List Event) :
    unableToOpenLogs (a ++ b) = unableToOpenLogs a + unableToOpenLogs b := by
  simp [unableToOpenLogs]

@[simp]
theorem logLines_append (a b : List Event) : logLines (a ++ b) = logLines a + logLines b := by
  simp [logLines]

@[simp]
theorem sleeps_append (a b : List Event) : sleeps (a ++ b) = sleeps a ++ sleeps b := by
  simp [sleeps]

@[simp]
theorem cameraWrites_append (a b : List Event) :
    cameraWrites (a ++ b) = cameraWrites a ++ cameraWrites b := by
  simp [cameraWrites]

@[simp]
theorem published_append (a b : List Event) : published (a ++ b) = published a ++ published b := by
  simp [published]

@[simp]
theorem timersCreated_append (a b : List Event) :
    timersCreated (a ++ b) = timersCreated a ++ timersCreated b := by
  simp [timersCreated]

@[simp]
theorem advertised_append (a b : List Event) :
    advertised (a ++ b) = advertised a ++ advertised b := by
  simp [advertised]

/-- Going `n` times round the loop on a camera that cannot be opened: the loop
is then where it would be on the rest of the script, with `n` more attempts,
`n` more "Unable to open" lines and `n` more sleeps behind it. -/
theorem openLoop_failedAttempts (ds : String) (p : Double) (rest : List Attempt)
    (self : DriverNodelet) (h : self.camera_ = none) (n : Nat) :
    (openLoop ds p (failedAttempts n ++ rest) self).self = (openLoop ds p rest self).self ∧
    (openLoop ds p (failedAttempts n ++ rest) self).status = (openLoop ds p rest self).status ∧
    openAttempts (openLoop ds p (failedAttempts n ++ rest) self).trace
      = n + openAttempts (openLoop ds p rest self).trace ∧
    unableToOpenLogs (openLoop ds p (failedAttempts n ++ rest) self).trace
      = n + unableToOpenLogs (openLoop ds p rest self).trace ∧
    sleeps (openLoop ds p (failedAttempts n ++ rest) self).trace
      = List.replicate n (posix_time_seconds p) ++ sleeps (openLoop ds p rest self).trace ∧
    cameraWrites (openLoop ds p (failedAttempts n ++ rest) self).trace
      = cameraWrites (openLoop ds p rest self).trace := by
  induction n with
  | zero => simp [failedAttempts]
  | succ k ih =>
    obtain ⟨h1, h2, h3, h4, h5, h6⟩ := ih
    have hstep : failedAttempts (k + 1) ++ rest
        = ⟨.error .PMDCameraNotOpenedException, false⟩ :: (failedAttempts k ++ rest) := by
      simp [failedAttempts, List.replicate_succ]
    rw [hstep, openLoop_failed ds p _ self h]
    refine ⟨h1, h2, ?_, ?_, ?_, ?_⟩
    · rw [Run.after_trace, openAttempts_append, h3]
      simp [openAttempts]
      omega
    · rw [Run.after_trace, unableToOpenLogs_append, h4]
      by_cases hds : ds = "" <;> simp [unableToOpenLogs, LogLine.isUnableToOpen, hds] <;> omega
    · rw [Run.after_trace, sleeps_append, h5]
      simp [sleeps, List.replicate_succ]
    · rw [Run.after_trace, cameraWrites_append, h6]
      simp [cameraWrites]

/-! ## Facts about the conversion to whole seconds -/

theorem posix_time_seconds_pos (q : ℚ) (h1 : 1 ≤ q) (h2 : q < 2 ^ 63) :
    0 < posix_time_seconds (.finite q) := by
  have hq : (0 : ℚ) ≤ q := le_trans zero_le_one h1
  have hnum : 0 ≤ q.num := Rat.num_nonneg.mpr hq
  have hden : (0 : Int) ≤ (q.den : Int) := Int.ofNat_nonneg _
  have hlo : (1 : Int) ≤ ⌊q⌋ := Int.le_floor.mpr (by simpa using h1)
  have hhi : ⌊q⌋ < (2 ^ 63 : Int) := Int.floor_lt.mpr (by simpa using h2)
  rw [Rat.floor_def] at hlo hhi
  have ht : Int.tdiv q.num q.den = q.num / q.den := Int.tdiv_eq_ediv hnum hden
  simp only [posix_time_seconds, doubleToLong, LONG_MIN, LONG_MAX, ht]
  rw [if_pos (by constructor <;> omega)]
  omega

theorem posix_time_seconds_nonpos (q : ℚ) (h : q ≤ 0) :
    posix_time_seconds (.finite q) ≤ 0 := by
  have hnum : q.num ≤ 0 := Rat.num_nonpos.mpr h
  have hden : (0 : Int) ≤ (q.den : Int) := Int.ofNat_nonneg _
  have h1 : 0 ≤ (-q.num).tdiv (q.den : Int) := Int.tdiv_nonneg (by omega) hden
  rw [Int.neg_tdiv] at h1
  simp only [posix_time_seconds, doubleToLong, LONG_MIN, LONG_MAX]
  split
  · omega
  · omega

/-! ## One trip round the loop, case by case -/

/-- What one trip round the loop does when `camera_` is empty, in each of the
five cases of the attempt. -/
theorem openLoop_cons (ds : String) (p : Double) (a : Attempt) (rest : List Attempt)
    (self : DriverNodelet) (h : self.camera_ = none) :
    (∃ cam, a = ⟨.ok cam, false⟩ ∧
      openLoop ds p (a :: rest) self
        = ⟨{ self with camera_ := some cam },
           [.openAttempt ds, .assignCamera cam, .log (.opened cam.serialNumber),
            .sleep (posix_time_seconds p)], .returned⟩) ∨
    (∃ cam, a = ⟨.ok cam, true⟩ ∧
      openLoop ds p (a :: rest) self
        = ⟨{ self with camera_ := some cam },
           [.openAttempt ds, .assignCamera cam, .log (.opened cam.serialNumber)],
           .threw .thread_interrupted⟩) ∨
    (a = ⟨.error .PMDCameraNotOpenedException, false⟩ ∧
      openLoop ds p (a :: rest) self
        = (openLoop ds p rest self).after
            [.openAttempt ds,
             .log (if ds ≠ "" then .unableToOpenSerial ds else .unableToOpen),
             .sleep (posix_time_seconds p)]) ∨
    (a = ⟨.error .PMDCameraNotOpenedException, true⟩ ∧
      openLoop ds p (a :: rest) self
        = ⟨self,
           [.openAttempt ds, .log (if ds ≠ "" then .unableToOpenSerial ds else .unableToOpen)],
           .threw .thread_interrupted⟩) ∨
    (∃ e, e ≠ .PMDCameraNotOpenedException ∧ a.result = .error e ∧
      openLoop ds p (a :: rest) self = ⟨self, [.openAttempt ds], .threw e⟩) := by
  obtain ⟨res, intr⟩ := a
  cases res with
  | ok cam =>
    cases intr with
    | false => exact Or.inl ⟨cam, rfl, openLoop_opened ds p rest self cam h⟩
    | true => exact Or.inr (Or.inl ⟨cam, rfl, by simp [openLoop, h]⟩)
  | error e =>
    cases e with
    | PMDCameraNotOpenedException =>
      cases intr with
      | false => exact Or.inr (Or.inr (Or.inl ⟨rfl, openLoop_failed ds p rest self h⟩))
      | true => exact Or.inr (Or.inr (Or.inr (Or.inl ⟨rfl, by simp [openLoop, h]⟩)))
    | otherException w =>
      exact Or.inr (Or.inr (Or.inr (Or.inr ⟨_, by simp, rfl, by simp [openLoop, h]⟩)))
    | thread_interrupted =>
      exact Or.inr (Or.inr (Or.inr (Or.inr ⟨_, by simp, rfl, by simp [openLoop, h]⟩)))
    | null_camera =>
      exact Or.inr (Or.inr (Or.inr (Or.inr ⟨_, by simp, rfl, by simp [openLoop, h]⟩)))

/-- The open loop touches no member other than `camera_`, and neither
advertises, creates a timer nor publishes. -/
theorem openLoop_frame (ds : String) (p : Double) (script : List Attempt) :
    ∀ (self : DriverNodelet),
      (openLoop ds p script self).self.depth_frame_id_ = self.depth_frame_id_ ∧
      (openLoop ds p script self).self.update_timer_ = self.update_timer_ ∧
      (openLoop ds p script self).self.depth_publisher_ = self.depth_publisher_ ∧
      published (openLoop ds p script self).trace = [] ∧
      advertised (openLoop ds p script self).trace = [] ∧
      timersCreated (openLoop ds p script self).trace = [] := by
  induction script with
  | nil =>
    intro self
    cases hc : self.camera_ <;> simp [openLoop, hc, published, advertised, timersCreated]
  | cons a rest ih =>
    intro self
    cases hc : self.camera_ with
    | some c => simp [openLoop, hc, published, advertised, timersCreated]
    | none =>
      rcases openLoop_cons ds p a rest self hc with
        ⟨cam, -, h⟩ | ⟨cam, -, h⟩ | ⟨-, h⟩ | ⟨-, h⟩ | ⟨e, -, -, h⟩
      · simp [h, published, advertised, timersCreated]
      · simp [h, published, advertised, timersCreated]
      · obtain ⟨h1, h2, h3, h4, h5, h6⟩ := ih self
        rw [h]
        simp only [Run.after_self, Run.after_trace, published_append, advertised_append,
          timersCreated_append, h1, h2, h3, h4, h5, h6]
        simp [published, advertised, timersCreated]
      · simp [h, published, advertised, timersCreated]
      · simp [h, published, advertised, timersCreated]

/-- When the open loop is left normally, `camera_` is set. -/
theorem openLoop_returned (ds : String) (p : Double) (script : List Attempt) :
    ∀ (self : DriverNodelet), (openLoop ds p script self).status = .returned →
      ∃ c, (openLoop ds p script self).self.camera_ = some c := by
  induction script with
  | nil =>
    intro self
    cases hc : self.camera_ <;> simp [openLoop, hc]
  | cons a rest ih =>
    intro self
    cases hc : self.camera_ with
    | some c => simp [openLoop, hc]
    | none =>
      rcases openLoop_cons ds p a rest self hc with
        ⟨cam, -, h⟩ | ⟨cam, -, h⟩ | ⟨-, h⟩ | ⟨-, h⟩ | ⟨e, -, -, h⟩
      · simp [h]
      · simp [h]
      · rw [h]
        simpa [Run.after] using ih self
      · simp [h]
      · simp [h]

@[simp]
theorem openAttemptsAfterWrite_append (a b : List Event) (ha : openAttemptsAfterWrite a = 0)
    (hb : openAttempts b = 0) : openAttemptsAfterWrite (a ++ b) = 0 := by
  induction a with
  | nil =>
    induction b with
    | nil => rfl
    | cons e rest ih =>
      cases e <;> simp_all [openAttemptsAfterWrite, openAttempts, List.countP_cons]
  | cons e rest ih =>
    cases e <;> simp_all [openAttemptsAfterWrite]

/-- The single-assignment facts of the open loop, started with `camera_` empty:
at most one write, the cell ends up holding what was written, no open attempt
follows the write, and a write happens at the first successful attempt of the
script, all attempts before it having failed with the camera-not-opened
failure. -/
theorem openLoop_single_assignment (ds : String) (p : Double) (script : List Attempt) :
    ∀ (self : DriverNodelet), self.camera_ = none →
      (cameraWrites (openLoop ds p script self).trace).length ≤ 1 ∧
      (openLoop ds p script self).self.camera_
        = (cameraWrites (openLoop ds p script self).trace).head? ∧
      openAttemptsAfterWrite (openLoop ds p script self).trace = 0 ∧
      (cameraWrites (openLoop ds p script self).trace = [] ∨
       ∃ pre a post c, script = pre ++ a :: post ∧ a.result = .ok c ∧
         (∀ b ∈ pre, b = ⟨.error .PMDCameraNotOpenedException, false⟩) ∧
         cameraWrites (openLoop ds p script self).trace = [c] ∧
         openAttempts (openLoop ds p script self).trace = pre.length + 1) := by
  induction script with
  | nil =>
    intro self hc
    simp [openLoop, hc, cameraWrites, openAttemptsAfterWrite]
  | cons a rest ih =>
    intro self hc
    rcases openLoop_cons ds p a rest self hc with
      ⟨cam, ha, h⟩ | ⟨cam, ha, h⟩ | ⟨ha, h⟩ | ⟨-, h⟩ | ⟨e, -, -, h⟩
    · rw [h]
      refine ⟨by simp [cameraWrites], by simp [cameraWrites],
        by simp [openAttemptsAfterWrite, openAttempts], Or.inr ⟨[], a, rest, cam, ?_⟩⟩
      subst ha
      simp [cameraWrites, openAttempts]
    · rw [h]
      refine ⟨by simp [cameraWrites], by simp [cameraWrites],
        by simp [openAttemptsAfterWrite, openAttempts], Or.inr ⟨[], a, rest, cam, ?_⟩⟩
      subst ha
      simp [cameraWrites, openAttempts]
    · obtain ⟨h1, h2, h3, h4⟩ := ih self hc
      rw [h]
      have hw : cameraWrites ((openLoop ds p rest self).after
          [.openAttempt ds, .log (if ds ≠ "" then .unableToOpenSerial ds else .unableToOpen),
           .sleep (posix_time_seconds p)]).trace = cameraWrites (openLoop ds p rest self).trace := by
        simp [Run.after, cameraWrites]
      refine ⟨by rw [hw]; exact h1, by rw [hw]; simpa [Run.after] using h2, ?_, ?_⟩
      · simpa [Run.after, openAttemptsAfterWrite] using h3
      · rcases h4 with h4 | ⟨pre, b, post, c, hs, hb, hpre, hcw, hoa⟩
        · exact Or.inl (by rw [hw]; exact h4)
        · refine Or.inr ⟨a :: pre, b, post, c, by simp [hs], hb, ?_, by rw [hw]; exact hcw, ?_⟩
          · intro x hx
            rcases List.mem_cons.mp hx with hx | hx
            · rw [hx, ha]
            · exact hpre x hx
          · rw [Run.after_trace, openAttempts_append, hoa]
            simp [openAttempts]
            omega
    · rw [h]
      simp [cameraWrites, openAttemptsAfterWrite, hc]
    · rw [h]
      simp [cameraWrites, openAttemptsAfterWrite, hc]

/-! ## Facts about the sleeps between attempts -/

theorem gapsFrom_of_no_attempt (tail : List Event) (h : openAttempts tail = 0) :
    ∀ st, gapsFrom tail st = [] := by
  induction tail with
  | nil => intro st; rfl
  | cons e rest ih =>
    intro st
    cases e <;> simp_all [gapsFrom, openAttempts, List.countP_cons]

theorem gapsFrom_append_of_no_attempt (tr tail : List Event) (h : openAttempts tail = 0) :
    ∀ st, gapsFrom (tr ++ tail) st = gapsFrom tr st := by
  induction tr with
  | nil =>
    intro st
    simpa [gapsFrom] using gapsFrom_of_no_attempt tail h st
  | cons e rest ih =>
    intro st
    cases e <;> cases st <;> simp [gapsFrom, ih]

/-- Between two consecutive open attempts of the open loop there is exactly one
sleep, of the configured period converted to whole seconds. The walk may
start before any attempt or just after the sleep of an earlier trip. -/
theorem openLoop_gaps (ds : String) (p : Double) (script : List Attempt) :
    ∀ (self : DriverNodelet) (st : Option (List Int)), self.camera_ = none →
      (st = none ∨ st = some [posix_time_seconds p]) →
      ∀ gap ∈ gapsFrom (openLoop ds p script self).trace st, gap = [posix_time_seconds p] := by
  induction script with
  | nil =>
    intro self st hc _ gap hgap
    simp [openLoop, hc, gapsFrom] at hgap
  | cons a rest ih =>
    intro self st hc hst gap hgap
    rcases openLoop_cons ds p a rest self hc with
      ⟨cam, -, h⟩ | ⟨cam, -, h⟩ | ⟨-, h⟩ | ⟨-, h⟩ | ⟨e, -, -, h⟩
    · rw [h] at hgap
      rcases hst with hst | hst <;> subst hst <;> simp [gapsFrom] at hgap
      exact hgap
    · rw [h] at hgap
      rcases hst with hst | hst <;> subst hst <;> simp [gapsFrom] at hgap
      exact hgap
    · rw [h, Run.after_trace] at hgap
      rcases hst with hst | hst <;> subst hst <;> simp [gapsFrom] at hgap
      · exact ih self _ hc (Or.inr rfl) gap hgap
      · rcases hgap with hgap | hgap
        · exact hgap
        · exact ih self _ hc (Or.inr rfl) gap hgap
    · rw [h] at hgap
      rcases hst with hst | hst <;> subst hst <;> simp [gapsFrom] at hgap
      exact hgap
    · rw [h] at hgap
      rcases hst with hst | hst <;> subst hst <;> simp [gapsFrom] at hgap
      exact hgap

/-! ## Facts about the callback and the timer -/

theorem updateCallback_self (self : DriverNodelet) (t : Tick) :
    (updateCallback self t).self = self := by
  unfold updateCallback
  cases self.camera_ <;> cases t.cameraInfo <;> cases t.depthImage <;> rfl

/-- The timer changes no member, and its trace holds nothing but publications. -/
theorem spinTimer_frame (hostAbsorbs : Bool) (ticks : List Tick) (self : DriverNodelet) :
    (spinTimer hostAbsorbs ticks self).self = self ∧
    openAttempts (spinTimer hostAbsorbs ticks self).trace = 0 ∧
    cameraWrites (spinTimer hostAbsorbs ticks self).trace = [] ∧
    logLines (spinTimer hostAbsorbs ticks self).trace = 0 := by
  induction ticks with
  | nil => simp [spinTimer, openAttempts, cameraWrites, logLines]
  | cons t rest ih =>
    obtain ⟨h1, h2, h3, h4⟩ := ih
    have hs := updateCallback_self self t
    have htr : openAttempts (updateCallback self t).trace = 0 ∧
        cameraWrites (updateCallback self t).trace = [] ∧
        logLines (updateCallback self t).trace = 0 := by
      unfold updateCallback
      cases self.camera_ <;> cases t.cameraInfo <;> cases t.depthImage <;>
        simp [openAttempts, cameraWrites, logLines]
    obtain ⟨t1, t2, t3⟩ := htr
    unfold spinTimer
    cases hst : (updateCallback self t).status with
    | returned => simp [hst, hs, Run.after, h1, h2, h3, h4, t1, t2, t3]
    | retrying => simp [hst, hs, Run.after, h1, h2, h3, h4, t1, t2, t3]
    | threw e =>
      cases hostAbsorbs with
      | true => simp [hst, hs, Run.after, h1, h2, h3, h4, t1, t2, t3]
      | false => simp [hst, hs, t1, t2, t3]

/-- A tick on which both fetches succeed: both messages get the tick's time
and the nodelet's frame id, and the pair is published. -/
theorem updateCallback_of_success (self : DriverNodelet) (c : PMDCamboardNano) (t : Tick)
    (info : CameraInfo) (depth : Image) (hc : self.camera_ = some c)
    (hinfo : t.cameraInfo = .ok info) (hdepth : t.depthImage = .ok depth) :
    updateCallback self t
      = ⟨self,
         [.publish { depth with header := ⟨t.now, self.depth_frame_id_⟩ }
                   { info with header := ⟨t.now, self.depth_frame_id_⟩ }],
         .returned⟩ := by
  simp [updateCallback, hc, hinfo, hdepth]

/-- A tick on which a fetch fails: the exception leaves the callback, which has
done nothing. -/
theorem updateCallback_of_failure (self : DriverNodelet) (t : Tick)
    (hfail : (∃ e, t.cameraInfo = .error e) ∨ (∃ e, t.depthImage = .error e)) :
    ∃ e, updateCallback self t = ⟨self, [], .threw e⟩ := by
  unfold updateCallback
  cases self.camera_ with
  | none => exact ⟨_, rfl⟩
  | some c =>
    cases hi : t.cameraInfo with
    | error e => exact ⟨_, rfl⟩
    | ok info =>
      cases hd : t.depthImage with
      | error e => exact ⟨_, rfl⟩
      | ok depth =>
        rcases hfail with ⟨e, he⟩ | ⟨e, he⟩
        · rw [hi] at he
          cases he
        · rw [hd] at he
          cases he

/-! ## The whole driver in terms of the open loop -/

/-- Either the open loop is left normally, and `onInitImpl` then advertises and
creates the timer; or it is not, and `onInitImpl` has done nothing beyond the
loop. -/
theorem onInitImpl_cases (self : DriverNodelet) (pn : ParamServer) (script : List Attempt)
    (L : Run)
    (hL : L = openLoop (ParamServer.param pn.device_serial "")
      (ParamServer.param pn.open_camera_retry_period (.finite 3)) script
      { self with depth_frame_id_ :=
          ParamServer.param pn.depth_frame_id "/pmd_depth_optical_frame" }) :
    (L.status = .returned ∧
      onInitImpl self pn script
        = ⟨{ L.self with depth_publisher_ := some "depth/image",
                         update_timer_ := some (Rate.expectedCycleTime 30) },
           L.trace ++ [.advertiseCamera "depth/image", .createTimer (Rate.expectedCycleTime 30)],
           .returned⟩) ∨
    (L.status ≠ .returned ∧ onInitImpl self pn script = L) := by
  subst hL
  cases hst : (openLoop (ParamServer.param pn.device_serial "")
      (ParamServer.param pn.open_camera_retry_period (.finite 3)) script
      { self with depth_frame_id_ :=
          ParamServer.param pn.depth_frame_id "/pmd_depth_optical_frame" }).status with
  | returned =>
    left
    simp [onInitImpl, hst]
  | threw e =>
    right
    simp [onInitImpl, hst]
  | retrying =>
    right
    simp [onInitImpl, hst]

/-- The timer fires exactly when `onInitImpl` returned. -/
theorem runDriver_cases (pn : ParamServer) (script : List Attempt) (hostAbsorbs : Bool)
    (ticks : List Tick) :
    ((onInitImpl {} pn script).status = .returned ∧
      runDriver pn script hostAbsorbs ticks
        = (spinTimer hostAbsorbs ticks (onInitImpl {} pn script).self).after
            (onInitImpl {} pn script).trace) ∨
    ((onInitImpl {} pn script).status ≠ .returned ∧
      (onInitImpl {} pn script).self.update_timer_ = none ∧
      runDriver pn script hostAbsorbs ticks = onInitImpl {} pn script) := by
  rcases onInitImpl_cases {} pn script _ rfl with ⟨h1, h2⟩ | ⟨h1, h2⟩
  · left
    have hst : (onInitImpl {} pn script).status = .returned := by rw [h2]
    refine ⟨hst, ?_⟩
    unfold runDriver
    simp only [h2]
  · right
    have hti := (openLoop_frame (ParamServer.param pn.device_serial "")
      (ParamServer.param pn.open_camera_retry_period (.finite 3)) script
      { depth_frame_id_ := ParamServer.param pn.depth_frame_id "/pmd_depth_optical_frame" }).2.1
    have hst : (onInitImpl {} pn script).status ≠ .returned := by rw [h2]; exact h1
    have hnone : (onInitImpl {} pn script).self.update_timer_ = none := by rw [h2]; exact hti
    refine ⟨hst, hnone, ?_⟩
    unfold runDriver
    simp only [hnone]

/-! ## The claims -/

/-- C1. On every tick that fires after `onInitImpl` has returned and on which
both `getCameraInfo` and `getDepthImage` succeed, `updateCallback` hands exactly
one pair to the publisher; the image and the camera info of that pair carry the
same stamp, the time sampled at the start of the tick, and the same frame id,
the configured `depth_frame_id` (default "/pmd_depth_optical_frame"), whatever
headers the device returned; the rest of each message is what the device
returned. -/
theorem C1_pair_shares_stamp_and_frame_id (pn : ParamServer) (script : List Attempt) (t : Tick)
    (info : CameraInfo) (depth : Image)
    (harmed : (onInitImpl {} pn script).status = .returned)
    (hinfo : t.cameraInfo = .ok info) (hdepth : t.depthImage = .ok depth) :
    ∃ d i,
      updateCallback (onInitImpl {} pn script).self t
        = ⟨(onInitImpl {} pn script).self, [.publish d i], .returned⟩ ∧
      d.header.stamp = i.header.stamp ∧ d.header.frame_id = i.header.frame_id ∧
      d.header.stamp = t.now ∧ i.header.stamp = t.now ∧
      d.header.frame_id = ParamServer.param pn.depth_frame_id "/pmd_depth_optical_frame" ∧
      i.header.frame_id = ParamServer.param pn.depth_frame_id "/pmd_depth_optical_frame" ∧
      d = { depth with header := d.header } ∧ i = { info with header := i.header } := by
  rcases onInitImpl_cases {} pn script _ rfl with ⟨h1, h2⟩ | ⟨h1, h2⟩
  · obtain ⟨c, hc⟩ := openLoop_returned _ _ _ _ h1
    have hfid := (openLoop_frame (ParamServer.param pn.device_serial "")
      (ParamServer.param pn.open_camera_retry_period (.finite 3)) script
      { depth_frame_id_ := ParamServer.param pn.depth_frame_id "/pmd_depth_optical_frame" }).1
    have hc2 : (onInitImpl {} pn script).self.camera_ = some c := by rw [h2]; exact hc
    have hf2 : (onInitImpl {} pn script).self.depth_frame_id_
        = ParamServer.param pn.depth_frame_id "/pmd_depth_optical_frame" := by
      rw [h2]; exact hfid
    refine ⟨_, _, updateCallback_of_success _ c t info depth hc2 hinfo hdepth, ?_⟩
    simp [hf2]
  · rw [h2] at harmed
    exact absurd harmed h1

/-- C1, at a concrete input: the camera opens at once, the frame id is set to
"cam", and the device returns two messages with different stamps and frame
ids; the published pair carries the tick's time and "cam" in both headers. -/
theorem C1_pair_shares_stamp_and_frame_id_witness :
    (onInitImpl {} { depth_frame_id := some "cam" } [⟨.ok ⟨"A1"⟩, false⟩]).status = .returned ∧
    ∃ d i,
      updateCallback (onInitImpl {} { depth_frame_id := some "cam" } [⟨.ok ⟨"A1"⟩, false⟩]).self
          ⟨⟨10, 5⟩, .ok ⟨⟨⟨1, 2⟩, "x"⟩, 1, 1, [0]⟩, .ok ⟨⟨⟨3, 4⟩, "y"⟩, 1, 1, [7]⟩⟩
        = ⟨(onInitImpl {} { depth_frame_id := some "cam" } [⟨.ok ⟨"A1"⟩, false⟩]).self,
           [.publish d i], .returned⟩ ∧
      d.header.stamp = i.header.stamp ∧ d.header.frame_id = i.header.frame_id ∧
      d.header.stamp = ⟨10, 5⟩ ∧ i.header.stamp = ⟨10, 5⟩ ∧
      d.header.frame_id = "cam" ∧ i.header.frame_id = "cam" ∧
      d = { (⟨⟨⟨3, 4⟩, "y"⟩, 1, 1, [7]⟩ : Image) with header := d.header } ∧
      i = { (⟨⟨⟨1, 2⟩, "x"⟩, 1, 1, [0]⟩ : CameraInfo) with header := i.header } :=
  ⟨by simp [onInitImpl, openLoop_opened, ParamServer.param],
   C1_pair_shares_stamp_and_frame_id { depth_frame_id := some "cam" } [⟨.ok ⟨"A1"⟩, false⟩]
     ⟨⟨10, 5⟩, .ok ⟨⟨⟨1, 2⟩, "x"⟩, 1, 1, [0]⟩, .ok ⟨⟨⟨3, 4⟩, "y"⟩, 1, 1, [7]⟩⟩
     ⟨⟨⟨1, 2⟩, "x"⟩, 1, 1, [0]⟩ ⟨⟨⟨3, 4⟩, "y"⟩, 1, 1, [7]⟩
     (by simp [onInitImpl, openLoop_opened, ParamServer.param]) rfl rfl⟩

/-- C2. For every retry delay (set on the parameter server or left at its default, so
in particular every delay > 0) and every script of `n` open attempts that fail
with the camera-not-opened failure followed by one attempt that succeeds with
camera `cam`, none of them interrupted, `onInitImpl` on a fresh nodelet returns,
has made exactly `n + 1` open attempts, leaves `camera_` holding `cam`, and has
written exactly `n` "Unable to open" log lines. Whatever the script holds after
the successful attempt is never consumed. -/
theorem C2_acquire_after_failures (pn : ParamServer) (n : Nat) (cam : PMDCamboardNano)
    (rest : List Attempt) :
    (onInitImpl {} pn (failedAttempts n ++ ⟨.ok cam, false⟩ :: rest)).status = .returned ∧
    openAttempts (onInitImpl {} pn (failedAttempts n ++ ⟨.ok cam, false⟩ :: rest)).trace
      = n + 1 ∧
    (onInitImpl {} pn (failedAttempts n ++ ⟨.ok cam, false⟩ :: rest)).self.camera_ = some cam ∧
    unableToOpenLogs (onInitImpl {} pn (failedAttempts n ++ ⟨.ok cam, false⟩ :: rest)).trace
      = n := by
  have key := fun (self : DriverNodelet) (h : self.camera_ = none) =>
    openLoop_failedAttempts (ParamServer.param pn.device_serial "")
      (ParamServer.param pn.open_camera_retry_period (.finite 3)) (⟨.ok cam, false⟩ :: rest) self h n
  have hk := key { depth_frame_id_ := ParamServer.param pn.depth_frame_id "/pmd_depth_optical_frame" } rfl
  rw [openLoop_opened _ _ _ _ _ rfl] at hk
  obtain ⟨h1, h2, h3, h4, -, -⟩ := hk
  simp only [onInitImpl, h2]
  refine ⟨trivial, ?_, ?_, ?_⟩
  · rw [openAttempts_append, h3]
    simp [openAttempts]
  · simp [h1]
  · rw [unableToOpenLogs_append, h4]
    simp [unableToOpenLogs, LogLine.isUnableToOpen]

/-- C3. On every tick on which the camera-info fetch or the depth-image fetch
fails, `updateCallback` does not invoke the publisher: its trace is empty, so
neither an image nor a camera info is published, and the failure leaves the
callback as an exception. -/
theorem C3_fetch_failure_publishes_nothing (self : DriverNodelet) (t : Tick)
    (hfail : (∃ e, t.cameraInfo = .error e) ∨ (∃ e, t.depthImage = .error e)) :
    (updateCallback self t).trace = [] ∧
    published (updateCallback self t).trace = [] ∧
    ∃ e, (updateCallback self t).status = .threw e := by
  obtain ⟨e, he⟩ := updateCallback_of_failure self t hfail
  rw [he]
  exact ⟨rfl, rfl, e, rfl⟩

/-- C3, at a concrete input: the camera info is fetched, the depth image is not. -/
theorem C3_fetch_failure_publishes_nothing_witness :
    ((∃ e, (⟨⟨10, 5⟩, .ok ⟨⟨⟨1, 2⟩, "x"⟩, 1, 1, [0]⟩,
        .error (.otherException "PMDImageRetrievalException")⟩ : Tick).cameraInfo = .error e) ∨
     (∃ e, (⟨⟨10, 5⟩, .ok ⟨⟨⟨1, 2⟩, "x"⟩, 1, 1, [0]⟩,
        .error (.otherException "PMDImageRetrievalException")⟩ : Tick).depthImage = .error e)) ∧
    ((updateCallback { camera_ := some ⟨"A1"⟩ }
        ⟨⟨10, 5⟩, .ok ⟨⟨⟨1, 2⟩, "x"⟩, 1, 1, [0]⟩,
         .error (.otherException "PMDImageRetrievalException")⟩).trace = [] ∧
     published (updateCallback { camera_ := some ⟨"A1"⟩ }
        ⟨⟨10, 5⟩, .ok ⟨⟨⟨1, 2⟩, "x"⟩, 1, 1, [0]⟩,
         .error (.otherException "PMDImageRetrievalException")⟩).trace = [] ∧
     ∃ e, (updateCallback { camera_ := some ⟨"A1"⟩ }
        ⟨⟨10, 5⟩, .ok ⟨⟨⟨1, 2⟩, "x"⟩, 1, 1, [0]⟩,
         .error (.otherException "PMDImageRetrievalException")⟩).status = .threw e) :=
  ⟨Or.inr ⟨_, rfl⟩,
   C3_fetch_failure_publishes_nothing { camera_ := some ⟨"A1"⟩ }
     ⟨⟨10, 5⟩, .ok ⟨⟨⟨1, 2⟩, "x"⟩, 1, 1, [0]⟩,
      .error (.otherException "PMDImageRetrievalException")⟩ (Or.inr ⟨_, rfl⟩)⟩

/-- C4 (counterexample). With the camera open and `getCameraInfo` failing on a
tick, `updateCallback` does not complete normally and reports nothing: the
exception leaves the callback and no log line is written. -/
theorem C4_fetch_failure_leaves_callback :
    (updateCallback { camera_ := some ⟨"A1"⟩ }
      ⟨⟨3, 0⟩, .error (.otherException "PMDImageRetrievalException"),
       .ok ⟨⟨⟨0, 0⟩, ""⟩, 1, 1, [3]⟩⟩).status
      = .threw (.otherException "PMDImageRetrievalException") ∧
    (updateCallback { camera_ := some ⟨"A1"⟩ }
      ⟨⟨3, 0⟩, .error (.otherException "PMDImageRetrievalException"),
       .ok ⟨⟨⟨0, 0⟩, ""⟩, 1, 1, [3]⟩⟩).status ≠ .returned ∧
    logLines (updateCallback { camera_ := some ⟨"A1"⟩ }
      ⟨⟨3, 0⟩, .error (.otherException "PMDImageRetrievalException"),
       .ok ⟨⟨⟨0, 0⟩, ""⟩, 1, 1, [3]⟩⟩).trace = 0 := by
  simp [updateCallback, logLines]

/-- C4 (amended). A fetch failure inside a tick is not handled by the driver:
`updateCallback` has no handler, the exception leaves the callback, nothing is
published and no log line is written for that tick. In a run of five ticks
with a failure on the third, ticks 1 and 2 publish one pair each and the
exception of tick 3 reaches the code that fired the timer; if that code stops
there, 2 pairs have been published, and if it absorbs the exception and goes
on, ticks 4 and 5 publish too, 4 pairs in all. In neither case is a failure
logged by the driver. -/
theorem C4_fetch_failure_not_handled (self : DriverNodelet) (cam : PMDCamboardNano)
    (n1 n2 n4 n5 : Time) (i1 i2 i4 i5 : CameraInfo) (d1 d2 d4 d5 : Image) (t3 : Tick)
    (hcam : self.camera_ = some cam)
    (hfail : (∃ e, t3.cameraInfo = .error e) ∨ (∃ e, t3.depthImage = .error e)) :
    (∃ e, updateCallback self t3 = ⟨self, [], .threw e⟩) ∧
    (∃ e, (spinTimer false
        [⟨n1, .ok i1, .ok d1⟩, ⟨n2, .ok i2, .ok d2⟩, t3, ⟨n4, .ok i4, .ok d4⟩,
         ⟨n5, .ok i5, .ok d5⟩] self).status = .threw e) ∧
    (published (spinTimer false
        [⟨n1, .ok i1, .ok d1⟩, ⟨n2, .ok i2, .ok d2⟩, t3, ⟨n4, .ok i4, .ok d4⟩,
         ⟨n5, .ok i5, .ok d5⟩] self).trace).length = 2 ∧
    logLines (spinTimer false
        [⟨n1, .ok i1, .ok d1⟩, ⟨n2, .ok i2, .ok d2⟩, t3, ⟨n4, .ok i4, .ok d4⟩,
         ⟨n5, .ok i5, .ok d5⟩] self).trace = 0 ∧
    (published (spinTimer true
        [⟨n1, .ok i1, .ok d1⟩, ⟨n2, .ok i2, .ok d2⟩, t3, ⟨n4, .ok i4, .ok d4⟩,
         ⟨n5, .ok i5, .ok d5⟩] self).trace).length = 4 ∧
    logLines (spinTimer true
        [⟨n1, .ok i1, .ok d1⟩, ⟨n2, .ok i2, .ok d2⟩, t3, ⟨n4, .ok i4, .ok d4⟩,
         ⟨n5, .ok i5, .ok d5⟩] self).trace = 0 := by
  obtain ⟨e, he⟩ := updateCallback_of_failure self t3 hfail
  have g1 := updateCallback_of_success self cam ⟨n1, .ok i1, .ok d1⟩ i1 d1 hcam rfl rfl
  have g2 := updateCallback_of_success self cam ⟨n2, .ok i2, .ok d2⟩ i2 d2 hcam rfl rfl
  have g4 := updateCallback_of_success self cam ⟨n4, .ok i4, .ok d4⟩ i4 d4 hcam rfl rfl
  have g5 := updateCallback_of_success self cam ⟨n5, .ok i5, .ok d5⟩ i5 d5 hcam rfl rfl
  refine ⟨⟨e, he⟩, ⟨e, ?_⟩, ?_, ?_, ?_, ?_⟩ <;>
    simp [spinTimer, g1, g2, g4, g5, he, Run.after, published, logLines]

/-- C4 (amended), at a concrete input: five ticks, `getCameraInfo` fails on the third. -/
theorem C4_fetch_failure_not_handled_witness :
    ({ camera_ := some ⟨"A1"⟩ } : DriverNodelet).camera_ = some ⟨"A1"⟩ ∧
    (∃ e, (⟨⟨3, 0⟩, .error (.otherException "PMDImageRetrievalException"),
        .ok ⟨⟨⟨0, 0⟩, ""⟩, 1, 1, [3]⟩⟩ : Tick).cameraInfo = .error e) ∧
    (published (spinTimer false
        [⟨⟨1, 0⟩, .ok ⟨⟨⟨0, 0⟩, ""⟩, 1, 1, []⟩, .ok ⟨⟨⟨0, 0⟩, ""⟩, 1, 1, [1]⟩⟩,
         ⟨⟨2, 0⟩, .ok ⟨⟨⟨0, 0⟩, ""⟩, 1, 1, []⟩, .ok ⟨⟨⟨0, 0⟩, ""⟩, 1, 1, [2]⟩⟩,
         ⟨⟨3, 0⟩, .error (.otherException "PMDImageRetrievalException"),
            .ok ⟨⟨⟨0, 0⟩, ""⟩, 1, 1, [3]⟩⟩,
         ⟨⟨4, 0⟩, .ok ⟨⟨⟨0, 0⟩, ""⟩, 1, 1, []⟩, .ok ⟨⟨⟨0, 0⟩, ""⟩, 1, 1, [4]⟩⟩,
         ⟨⟨5, 0⟩, .ok ⟨⟨⟨0, 0⟩, ""⟩, 1, 1, []⟩, .ok ⟨⟨⟨0, 0⟩, ""⟩, 1, 1, [5]⟩⟩]
        { camera_ := some ⟨"A1"⟩ }).trace).length = 2 ∧
    (published (spinTimer true
        [⟨⟨1, 0⟩, .ok ⟨⟨⟨0, 0⟩, ""⟩, 1, 1, []⟩, .ok ⟨⟨⟨0, 0⟩, ""⟩, 1, 1, [1]⟩⟩,
         ⟨⟨2, 0⟩, .ok ⟨⟨⟨0, 0⟩, ""⟩, 1, 1, []⟩, .ok ⟨⟨⟨0, 0⟩, ""⟩, 1, 1, [2]⟩⟩,
         ⟨⟨3, 0⟩, .error (.otherException "PMDImageRetrievalException"),
            .ok ⟨⟨⟨0, 0⟩, ""⟩, 1, 1, [3]⟩⟩,
         ⟨⟨4, 0⟩, .ok ⟨⟨⟨0, 0⟩, ""⟩, 1, 1, []⟩, .ok ⟨⟨⟨0, 0⟩, ""⟩, 1, 1, [4]⟩⟩,
         ⟨⟨5, 0⟩, .ok ⟨⟨⟨0, 0⟩, ""⟩, 1, 1, []⟩, .ok ⟨⟨⟨0, 0⟩, ""⟩, 1, 1, [5]⟩⟩]
        { camera_ := some ⟨"A1"⟩ }).trace).length = 4 :=
  ⟨rfl, ⟨_, rfl⟩,
   (C4_fetch_failure_not_handled { camera_ := some ⟨"A1"⟩ } ⟨"A1"⟩
      ⟨1, 0⟩ ⟨2, 0⟩ ⟨4, 0⟩ ⟨5, 0⟩
      ⟨⟨⟨0, 0⟩, ""⟩, 1, 1, []⟩ ⟨⟨⟨0, 0⟩, ""⟩, 1, 1, []⟩ ⟨⟨⟨0, 0⟩, ""⟩, 1, 1, []⟩
      ⟨⟨⟨0, 0⟩, ""⟩, 1, 1, []⟩
      ⟨⟨⟨0, 0⟩, ""⟩, 1, 1, [1]⟩ ⟨⟨⟨0, 0⟩, ""⟩, 1, 1, [2]⟩ ⟨⟨⟨0, 0⟩, ""⟩, 1, 1, [4]⟩
      ⟨⟨⟨0, 0⟩, ""⟩, 1, 1, [5]⟩
      ⟨⟨3, 0⟩, .error (.otherException "PMDImageRetrievalException"),
        .ok ⟨⟨⟨0, 0⟩, ""⟩, 1, 1, [3]⟩⟩
      rfl (Or.inl ⟨_, rfl⟩)).2.2.1,
   (C4_fetch_failure_not_handled { camera_ := some ⟨"A1"⟩ } ⟨"A1"⟩
      ⟨1, 0⟩ ⟨2, 0⟩ ⟨4, 0⟩ ⟨5, 0⟩
      ⟨⟨⟨0, 0⟩, ""⟩, 1, 1, []⟩ ⟨⟨⟨0, 0⟩, ""⟩, 1, 1, []⟩ ⟨⟨⟨0, 0⟩, ""⟩, 1, 1, []⟩
      ⟨⟨⟨0, 0⟩, ""⟩, 1, 1, []⟩
      ⟨⟨⟨0, 0⟩, ""⟩, 1, 1, [1]⟩ ⟨⟨⟨0, 0⟩, ""⟩, 1, 1, [2]⟩ ⟨⟨⟨0, 0⟩, ""⟩, 1, 1, [4]⟩
      ⟨⟨⟨0, 0⟩, ""⟩, 1, 1, [5]⟩
      ⟨⟨3, 0⟩, .error (.otherException "PMDImageRetrievalException"),
        .ok ⟨⟨⟨0, 0⟩, ""⟩, 1, 1, [3]⟩⟩
      rfl (Or.inl ⟨_, rfl⟩)).2.2.2.2.1⟩

/-- C5 (counterexample). An open attempt that fails with an exception other than
`PMDCameraNotOpenedException` ends acquisition: the exception leaves
`onInitImpl`, only one attempt has been made although the next one would have
succeeded, and `camera_` is still empty. -/
theorem C5_other_failure_escapes :
    (onInitImpl {} {} [⟨.error (.otherException "std::bad_alloc"), false⟩,
        ⟨.ok ⟨"A1"⟩, false⟩]).status = .threw (.otherException "std::bad_alloc") ∧
    openAttempts (onInitImpl {} {} [⟨.error (.otherException "std::bad_alloc"), false⟩,
        ⟨.ok ⟨"A1"⟩, false⟩]).trace = 1 ∧
    (onInitImpl {} {} [⟨.error (.otherException "std::bad_alloc"), false⟩,
        ⟨.ok ⟨"A1"⟩, false⟩]).self.camera_ = none := by
  simp [onInitImpl, openLoop, ParamServer.param, openAttempts]

/-- C5 (amended). The loop retries on the camera-not-opened failure: after such
an attempt (not interrupted) `onInitImpl` logs, sleeps and carries on with the
rest of the script. A failure of any other kind is not caught: it leaves
`onInitImpl` after that one attempt, with `camera_` empty, nothing advertised
and no timer, whatever the script holds next. -/
theorem C5_retries_only_camera_not_opened (pn : ParamServer) (rest : List Attempt)
    (e : Exception) (interrupted : Bool) (he : e ≠ .PMDCameraNotOpenedException) :
    onInitImpl {} pn (⟨.error .PMDCameraNotOpenedException, false⟩ :: rest)
      = (onInitImpl {} pn rest).after
          [.openAttempt (ParamServer.param pn.device_serial ""),
           .log (if ParamServer.param pn.device_serial "" ≠ ""
                 then .unableToOpenSerial (ParamServer.param pn.device_serial "")
                 else .unableToOpen),
           .sleep (posix_time_seconds (ParamServer.param pn.open_camera_retry_period (.finite 3)))] ∧
    onInitImpl {} pn (⟨.error e, interrupted⟩ :: rest)
      = ⟨{ depth_frame_id_ := ParamServer.param pn.depth_frame_id "/pmd_depth_optical_frame" },
         [.openAttempt (ParamServer.param pn.device_serial "")],
         .threw e⟩ := by
  constructor
  · simp only [onInitImpl]
    rw [openLoop_failed _ _ _ _ rfl]
    simp only [Run.after_status, Run.after_self, Run.after_trace]
    cases hst : (openLoop (ParamServer.param pn.device_serial "")
        (ParamServer.param pn.open_camera_retry_period (.finite 3)) rest
        { depth_frame_id_ := ParamServer.param pn.depth_frame_id "/pmd_depth_optical_frame" }).status
      <;> simp [Run.after, hst]
  · cases e <;> simp_all [onInitImpl, openLoop]

/-- C5 (amended), at a concrete input: a `std::bad_alloc` from the constructor. -/
theorem C5_retries_only_camera_not_opened_witness :
    Exception.otherException "std::bad_alloc" ≠ .PMDCameraNotOpenedException ∧
    onInitImpl {} {} [⟨.error (.otherException "std::bad_alloc"), false⟩, ⟨.ok ⟨"A1"⟩, false⟩]
      = ⟨{ depth_frame_id_ := "/pmd_depth_optical_frame" }, [.openAttempt ""],
         .threw (.otherException "std::bad_alloc")⟩ :=
  ⟨by decide,
   (C5_retries_only_camera_not_opened {} [⟨.ok ⟨"A1"⟩, false⟩]
      (.otherException "std::bad_alloc") false (by decide)).2⟩

/-- C6 (counterexample). With `open_camera_retry_period` set to 0, one failed
attempt and then a successful one, the only duration handed to `sleep`
between the two open attempts is 0 seconds: the delay between two consecutive
attempts is not strictly positive. -/
theorem C6_zero_period_zero_delay :
    sleepsBetweenAttempts (onInitImpl {} { open_camera_retry_period := some (.finite 0) }
      [⟨.error .PMDCameraNotOpenedException, false⟩, ⟨.ok ⟨"A1"⟩, false⟩]).trace = [[0]] ∧
    ¬ ∀ gap ∈ sleepsBetweenAttempts
        (onInitImpl {} { open_camera_retry_period := some (.finite 0) }
          [⟨.error .PMDCameraNotOpenedException, false⟩, ⟨.ok ⟨"A1"⟩, false⟩]).trace,
        ∀ s ∈ gap, 0 < s := by
  have h : sleepsBetweenAttempts
      (onInitImpl {} { open_camera_retry_period := some (.finite 0) }
        [⟨.error .PMDCameraNotOpenedException, false⟩, ⟨.ok ⟨"A1"⟩, false⟩]).trace = [[0]] := by
    simp [onInitImpl, openLoop, ParamServer.param, sleepsBetweenAttempts, gapsFrom,
      posix_time_seconds, doubleToLong, LONG_MIN, LONG_MAX, Run.after]
  rw [h]
  exact ⟨rfl, by decide⟩

/-- C6 (amended). Between two consecutive open attempts `onInitImpl` sleeps
exactly once. When the configured retry period (default 3) is a finite value
of at least 1 second that fits a `long` (below 2^63), the duration handed to
that sleep is strictly positive. The driver neither clamps nor rejects a
period that is 0 or negative: for a finite value from -2^63 to 0 the duration
handed to that sleep is not positive, so the loop does not wait. -/
theorem C6_delay_positive_from_one_second (pn : ParamServer) (script : List Attempt) (q : ℚ)
    (gap : List Int)
    (hq : ParamServer.param pn.open_camera_retry_period (.finite 3) = .finite q)
    (hgap : gap ∈ sleepsBetweenAttempts (onInitImpl {} pn script).trace) :
    ∃ s, gap = [s] ∧
      (1 ≤ q → q < 2 ^ 63 → 0 < s) ∧
      (-(2 ^ 63) ≤ q → q ≤ 0 → s ≤ 0) := by
  have hg : gap = [posix_time_seconds (.finite q)] := by
    rw [← hq]
    apply openLoop_gaps (ParamServer.param pn.device_serial "")
      (ParamServer.param pn.open_camera_retry_period (.finite 3)) script
      { depth_frame_id_ := ParamServer.param pn.depth_frame_id "/pmd_depth_optical_frame" }
      none rfl (Or.inl rfl) gap
    rcases onInitImpl_cases {} pn script _ rfl with ⟨-, heq⟩ | ⟨-, heq⟩
    · rw [heq] at hgap
      simp only [sleepsBetweenAttempts] at hgap
      rw [gapsFrom_append_of_no_attempt _ _ (by simp [openAttempts])] at hgap
      exact hgap
    · rw [heq] at hgap
      exact hgap
  exact ⟨_, hg, fun h1 h2 => posix_time_seconds_pos q h1 h2,
    fun _ h => posix_time_seconds_nonpos q h⟩

/-- C6 (amended), at a concrete input: period 2, one failed attempt, then success;
the one sleep between the two attempts is of 2 seconds. -/
theorem C6_delay_positive_from_one_second_witness :
    ParamServer.param
        ({ open_camera_retry_period := some (.finite 2) } : ParamServer).open_camera_retry_period
        (.finite 3) = .finite 2 ∧
    sleepsBetweenAttempts (onInitImpl {} { open_camera_retry_period := some (.finite 2) }
        [⟨.error .PMDCameraNotOpenedException, false⟩, ⟨.ok ⟨"A1"⟩, false⟩]).trace = [[2]] ∧
    ∃ s, [(2 : Int)] = [s] ∧
      ((1 : ℚ) ≤ 2 → (2 : ℚ) < 2 ^ 63 → 0 < s) ∧
      (-(2 ^ 63) ≤ (2 : ℚ) → (2 : ℚ) ≤ 0 → s ≤ 0) :=
  ⟨rfl,
   by simp [onInitImpl, openLoop, ParamServer.param, sleepsBetweenAttempts, gapsFrom,
      posix_time_seconds, doubleToLong, LONG_MIN, LONG_MAX, Run.after],
   C6_delay_positive_from_one_second { open_camera_retry_period := some (.finite 2) }
     [⟨.error .PMDCameraNotOpenedException, false⟩, ⟨.ok ⟨"A1"⟩, false⟩] 2 [2] rfl
     (by simp [onInitImpl, openLoop, ParamServer.param, sleepsBetweenAttempts, gapsFrom,
        posix_time_seconds, doubleToLong, LONG_MIN, LONG_MAX, Run.after])⟩

/-- C7 (what the code does). The timer is created with the period of
`ros::Rate(30)`, a constant: with `update_rate` set to 10 the period is 1/30 s
and not 1/10 s, and two runs that differ only in `update_rate` are the same
run, so two different rates give the same timer period. -/
theorem C7_timer_period_ignores_update_rate (pn : ParamServer) (script : List Attempt)
    (r1 r2 : Double) :
    timersCreated (onInitImpl {} { update_rate := some (.finite 10) } [⟨.ok ⟨"A1"⟩, false⟩]).trace
      = [1 / 30] ∧
    (onInitImpl {} { update_rate := some (.finite 10) } [⟨.ok ⟨"A1"⟩, false⟩]).self.update_timer_
      = some (1 / 30) ∧
    (1 / 30 : ℚ) ≠ 1 / 10 ∧
    onInitImpl {} { pn with update_rate := some r1 } script
      = onInitImpl {} { pn with update_rate := some r2 } script := by
  refine ⟨?_, ?_, by norm_num, rfl⟩
  · simp [onInitImpl, openLoop_opened, ParamServer.param, timersCreated, Rate.expectedCycleTime]
  · simp [onInitImpl, openLoop_opened, ParamServer.param, Rate.expectedCycleTime]

/-- C8. The init thread is interrupted while acquisition is still retrying: `n`
trips round the loop have failed to open the camera, and the interruption is
pending at the `sleep` that ends the next trip, the only interruption point of
the loop (whatever the attempt of that trip did, and whatever the outside
world would have done afterwards). Then an exception leaves `onInitImpl`
before anything is advertised and before the timer is created, the timer
never fires and nothing is ever published, and the attempt of that trip is
the last one: `n + 1` attempts in all. -/
theorem C8_interrupted_mid_retry_never_arms (pn : ParamServer) (n : Nat) (last : Attempt)
    (rest : List Attempt) (hostAbsorbs : Bool) (ticks : List Tick)
    (hstop : last.interrupted = true) :
    (∃ e, (runDriver pn (failedAttempts n ++ last :: rest) hostAbsorbs ticks).status
        = .threw e) ∧
    (runDriver pn (failedAttempts n ++ last :: rest) hostAbsorbs ticks).self.update_timer_
      = none ∧
    (runDriver pn (failedAttempts n ++ last :: rest) hostAbsorbs ticks).self.depth_publisher_
      = none ∧
    advertised (runDriver pn (failedAttempts n ++ last :: rest) hostAbsorbs ticks).trace = [] ∧
    timersCreated (runDriver pn (failedAttempts n ++ last :: rest) hostAbsorbs ticks).trace
      = [] ∧
    published (runDriver pn (failedAttempts n ++ last :: rest) hostAbsorbs ticks).trace = [] ∧
    openAttempts (runDriver pn (failedAttempts n ++ last :: rest) hostAbsorbs ticks).trace
      = n + 1 := by
  obtain ⟨-, hst, hoa, -, -, -⟩ := openLoop_failedAttempts (ParamServer.param pn.device_serial "")
    (ParamServer.param pn.open_camera_retry_period (.finite 3)) (last :: rest)
    { depth_frame_id_ := ParamServer.param pn.depth_frame_id "/pmd_depth_optical_frame" } rfl n
  obtain ⟨-, hti, hpu, hpub, hadv, htim⟩ := openLoop_frame
    (ParamServer.param pn.device_serial "")
    (ParamServer.param pn.open_camera_retry_period (.finite 3)) (failedAttempts n ++ last :: rest)
    { depth_frame_id_ := ParamServer.param pn.depth_frame_id "/pmd_depth_optical_frame" }
  have hlast : (∃ e, (openLoop (ParamServer.param pn.device_serial "")
        (ParamServer.param pn.open_camera_retry_period (.finite 3)) (last :: rest)
        { depth_frame_id_ := ParamServer.param pn.depth_frame_id
            "/pmd_depth_optical_frame" }).status = .threw e) ∧
      openAttempts (openLoop (ParamServer.param pn.device_serial "")
        (ParamServer.param pn.open_camera_retry_period (.finite 3)) (last :: rest)
        { depth_frame_id_ := ParamServer.param pn.depth_frame_id
            "/pmd_depth_optical_frame" }).trace = 1 := by
    rcases openLoop_cons (ParamServer.param pn.device_serial "")
        (ParamServer.param pn.open_camera_retry_period (.finite 3)) last rest
        { depth_frame_id_ := ParamServer.param pn.depth_frame_id "/pmd_depth_optical_frame" }
        rfl with
      ⟨cam, ha, -⟩ | ⟨cam, -, h⟩ | ⟨ha, -⟩ | ⟨-, h⟩ | ⟨e, -, -, h⟩
    · rw [ha] at hstop
      cases hstop
    · rw [h]
      exact ⟨⟨_, rfl⟩, by simp [openAttempts]⟩
    · rw [ha] at hstop
      cases hstop
    · rw [h]
      exact ⟨⟨_, rfl⟩, by simp [openAttempts]⟩
    · rw [h]
      exact ⟨⟨_, rfl⟩, by simp [openAttempts]⟩
  obtain ⟨⟨e, he⟩, h1⟩ := hlast
  rw [he] at hst
  rw [h1] at hoa
  rcases onInitImpl_cases {} pn (failedAttempts n ++ last :: rest) _ rfl with
    ⟨hr, -⟩ | ⟨-, heq⟩
  · rw [hst] at hr
    cases hr
  · rcases runDriver_cases pn (failedAttempts n ++ last :: rest) hostAbsorbs ticks with
      ⟨hr, -⟩ | ⟨-, -, hrun⟩
    · rw [heq, hst] at hr
      cases hr
    · rw [hrun, heq]
      exact ⟨⟨e, hst⟩, hti, hpu, hadv, htim, hpub, hoa⟩

/-- C8, at a concrete input: two failed trips, the interruption arrives during the
third, and five ticks that would have succeeded never fire. -/
theorem C8_interrupted_mid_retry_never_arms_witness :
    (⟨.error .PMDCameraNotOpenedException, true⟩ : Attempt).interrupted = true ∧
    published (runDriver {}
        (failedAttempts 2 ++ ⟨.error .PMDCameraNotOpenedException, true⟩ :: [⟨.ok ⟨"A1"⟩, false⟩])
        true [⟨⟨1, 0⟩, .ok ⟨⟨⟨0, 0⟩, ""⟩, 1, 1, []⟩, .ok ⟨⟨⟨0, 0⟩, ""⟩, 1, 1, [1]⟩⟩]).trace = [] ∧
    openAttempts (runDriver {}
        (failedAttempts 2 ++ ⟨.error .PMDCameraNotOpenedException, true⟩ :: [⟨.ok ⟨"A1"⟩, false⟩])
        true [⟨⟨1, 0⟩, .ok ⟨⟨⟨0, 0⟩, ""⟩, 1, 1, []⟩, .ok ⟨⟨⟨0, 0⟩, ""⟩, 1, 1, [1]⟩⟩]).trace
      = 2 + 1 :=
  ⟨rfl,
   (C8_interrupted_mid_retry_never_arms {} 2 ⟨.error .PMDCameraNotOpenedException, true⟩
      [⟨.ok ⟨"A1"⟩, false⟩] true
      [⟨⟨1, 0⟩, .ok ⟨⟨⟨0, 0⟩, ""⟩, 1, 1, []⟩, .ok ⟨⟨⟨0, 0⟩, ""⟩, 1, 1, [1]⟩⟩] rfl).2.2.2.2.2.1,
   (C8_interrupted_mid_retry_never_arms {} 2 ⟨.error .PMDCameraNotOpenedException, true⟩
      [⟨.ok ⟨"A1"⟩, false⟩] true
      [⟨⟨1, 0⟩, .ok ⟨⟨⟨0, 0⟩, ""⟩, 1, 1, []⟩, .ok ⟨⟨⟨0, 0⟩, ""⟩, 1, 1, [1]⟩⟩] rfl).2.2.2.2.2.2⟩

/-- C9. Over any run of the driver (any parameters, any script of open attempts,
any ticks) `camera_` is written at most once and ends up holding what was
written; no open attempt comes after the write; a write, if there is one,
stores the camera of the first successful attempt of the script, every
attempt before it having failed with the camera-not-opened failure, and that
attempt is the last one made; and `updateCallback` returns the nodelet it was
given, so `camera_` and `depth_frame_id_` are unchanged by a tick. -/
theorem C9_camera_written_once (pn : ParamServer) (script : List Attempt) (hostAbsorbs : Bool)
    (ticks : List Tick) (self : DriverNodelet) (t : Tick) :
    (cameraWrites (runDriver pn script hostAbsorbs ticks).trace).length ≤ 1 ∧
    (runDriver pn script hostAbsorbs ticks).self.camera_
      = (cameraWrites (runDriver pn script hostAbsorbs ticks).trace).head? ∧
    openAttemptsAfterWrite (runDriver pn script hostAbsorbs ticks).trace = 0 ∧
    (cameraWrites (runDriver pn script hostAbsorbs ticks).trace = [] ∨
     ∃ pre a post c, script = pre ++ a :: post ∧ a.result = .ok c ∧
       (∀ b ∈ pre, b = ⟨.error .PMDCameraNotOpenedException, false⟩) ∧
       cameraWrites (runDriver pn script hostAbsorbs ticks).trace = [c] ∧
       openAttempts (runDriver pn script hostAbsorbs ticks).trace = pre.length + 1) ∧
    (updateCallback self t).self.camera_ = self.camera_ ∧
    (updateCallback self t).self.depth_frame_id_ = self.depth_frame_id_ := by
  obtain ⟨h1, h2, h3, h4⟩ := openLoop_single_assignment (ParamServer.param pn.device_serial "")
    (ParamServer.param pn.open_camera_retry_period (.finite 3)) script
    { depth_frame_id_ := ParamServer.param pn.depth_frame_id "/pmd_depth_optical_frame" } rfl
  have ss : ∀ x, (spinTimer hostAbsorbs ticks x).self = x :=
    fun x => (spinTimer_frame hostAbsorbs ticks x).1
  have sa : ∀ x, openAttempts (spinTimer hostAbsorbs ticks x).trace = 0 :=
    fun x => (spinTimer_frame hostAbsorbs ticks x).2.1
  have sc : ∀ x, cameraWrites (spinTimer hostAbsorbs ticks x).trace = [] :=
    fun x => (spinTimer_frame hostAbsorbs ticks x).2.2.1
  have hcb := updateCallback_self self t
  have key : cameraWrites (runDriver pn script hostAbsorbs ticks).trace
        = cameraWrites (openLoop (ParamServer.param pn.device_serial "")
            (ParamServer.param pn.open_camera_retry_period (.finite 3)) script
            { depth_frame_id_ := ParamServer.param pn.depth_frame_id
                "/pmd_depth_optical_frame" }).trace ∧
      (runDriver pn script hostAbsorbs ticks).self.camera_
        = (openLoop (ParamServer.param pn.device_serial "")
            (ParamServer.param pn.open_camera_retry_period (.finite 3)) script
            { depth_frame_id_ := ParamServer.param pn.depth_frame_id
                "/pmd_depth_optical_frame" }).self.camera_ ∧
      openAttempts (runDriver pn script hostAbsorbs ticks).trace
        = openAttempts (openLoop (ParamServer.param pn.device_serial "")
            (ParamServer.param pn.open_camera_retry_period (.finite 3)) script
            { depth_frame_id_ := ParamServer.param pn.depth_frame_id
                "/pmd_depth_optical_frame" }).trace ∧
      openAttemptsAfterWrite (runDriver pn script hostAbsorbs ticks).trace = 0 := by
    rcases runDriver_cases pn script hostAbsorbs ticks with ⟨-, hrun⟩ | ⟨-, -, hrun⟩
    · rcases onInitImpl_cases {} pn script _ rfl with ⟨-, heq⟩ | ⟨-, heq⟩
      · rw [hrun, heq]
        simp only [Run.after_trace, Run.after_self, cameraWrites_append, openAttempts_append,
          ss, sa, sc]
        refine ⟨by simp [cameraWrites], trivial, by simp [openAttempts], ?_⟩
        apply openAttemptsAfterWrite_append _ _ _ (sa _)
        exact openAttemptsAfterWrite_append _ _ h3 (by simp [openAttempts])
      · rw [hrun, heq]
        simp only [Run.after_trace, Run.after_self, cameraWrites_append, openAttempts_append,
          ss, sa, sc]
        refine ⟨by simp, trivial, by simp, ?_⟩
        exact openAttemptsAfterWrite_append _ _ h3 (sa _)
    · rcases onInitImpl_cases {} pn script _ rfl with ⟨hr, heq⟩ | ⟨-, heq⟩
      · rw [hrun, heq]
        refine ⟨by simp [cameraWrites], rfl, by simp [openAttempts], ?_⟩
        exact openAttemptsAfterWrite_append _ _ h3 (by simp [openAttempts])
      · rw [hrun, heq]
        exact ⟨rfl, rfl, rfl, h3⟩
  obtain ⟨k1, k2, k3, k4⟩ := key
  rw [k1, k2, k3]
  refine ⟨h1, h2, k4, h4, by rw [hcb], by rw [hcb]⟩

/-- C10 (counterexample). With the default parameters and a camera that opens at
the first attempt, the loop still sleeps once, for 3 seconds, after the
successful attempt and before it is left: one sleep, not zero. -/
theorem C10_sleep_follows_success :
    sleeps (onInitImpl {} {} [⟨.ok ⟨"A1"⟩, false⟩]).trace = [3] ∧
    (onInitImpl {} {} [⟨.ok ⟨"A1"⟩, false⟩]).trace
      = [.openAttempt "", .assignCamera ⟨"A1"⟩, .log (.opened "A1"), .sleep 3,
         .advertiseCamera "depth/image", .createTimer (Rate.expectedCycleTime 30)] := by
  simp [onInitImpl, openLoop_opened, ParamServer.param, sleeps, posix_time_seconds,
    doubleToLong, LONG_MIN, LONG_MAX]

/-- C10 (amended). The loop sleeps for the retry delay at the end of every trip,
after the attempt that succeeds as well as after one that fails: for every
script of `n` attempts that fail with the camera-not-opened failure followed
by one that succeeds, exactly `n + 1` sleeps are performed before the loop is
left (one sleep when the first attempt succeeds), each of the configured
period in whole seconds. -/
theorem C10_one_sleep_per_attempt (pn : ParamServer) (n : Nat) (cam : PMDCamboardNano)
    (rest : List Attempt) :
    (sleeps (onInitImpl {} pn (failedAttempts n ++ ⟨.ok cam, false⟩ :: rest)).trace).length
      = n + 1 ∧
    sleeps (onInitImpl {} pn (failedAttempts n ++ ⟨.ok cam, false⟩ :: rest)).trace
      = List.replicate (n + 1)
          (posix_time_seconds (ParamServer.param pn.open_camera_retry_period (.finite 3))) := by
  have hk := openLoop_failedAttempts (ParamServer.param pn.device_serial "")
    (ParamServer.param pn.open_camera_retry_period (.finite 3)) (⟨.ok cam, false⟩ :: rest)
    { depth_frame_id_ := ParamServer.param pn.depth_frame_id "/pmd_depth_optical_frame" }
    rfl n
  rw [openLoop_opened _ _ _ _ _ rfl] at hk
  obtain ⟨-, h2, -, -, h5, -⟩ := hk
  have hs : sleeps (onInitImpl {} pn (failedAttempts n ++ ⟨.ok cam, false⟩ :: rest)).trace
      = List.replicate (n + 1)
          (posix_time_seconds (ParamServer.param pn.open_camera_retry_period (.finite 3))) := by
    simp only [onInitImpl, h2]
    rw [sleeps_append, h5]
    simp [sleeps, List.replicate_succ']
  rw [hs]
  exact ⟨by simp, rfl⟩

end PmdCamboardNano
